import Mathlib

/-!
Verification of the iroha-lib client query builder (`iroha-lib/model/Query.hpp`).

The repository source provides the class declaration of `iroha_lib::Query`:
its members (`counter_`, `created_time_`, `protobuf_query_`, `keypair_`),
its `noexcept` constructor with default arguments `counter = 1` and
`created_time = now-in-milliseconds`, the ten fluent selection methods and
`signAndAddSignature`.  The method bodies, the wire-schema message types
(`queries.pb.h`), the keypair type (`crypto/keypair.hpp`) and the
`QueryGenerator` are external to the provided source tree, so they are
modelled from the specification, as marked on each definition below.

All `uint64_t` quantities are modelled as `Nat`; the builder performs no
arithmetic on them (they are only stored and copied), so the embedding is
exact on every 64-bit value.
-/

namespace IrohaLib

/-- Error taxonomy of the specification: `InvalidArgument` for a malformed or
empty identifier or an empty required list, `IllegalState` for a finalize with
nothing selected. -/
inductive QueryError where
  | InvalidArgument
  | IllegalState
deriving DecidableEq, Repr

/-- Modelled from the spec: `iroha::keypair_t` (from `crypto/keypair.hpp`,
which is not part of the provided source): an asymmetric keypair holding the
public identifier and the private signing material, both byte strings
modelled as lists of naturals. -/
structure keypair_t where
  pubkey : List Nat
  privkey : List Nat
deriving DecidableEq, Repr

/-- Modelled from the spec: the ten query-payload variants recognised by the
external wire schema (`queries.pb.h` is not part of the provided source),
each carrying only the parameters relevant to that kind. -/
inductive QueryPayload where
  | accountInfo (account_id : String)
  | accountAssets (account_id : String)
  | accountDetail (account_id : String)
  | accountTransactions (account_id : String)
  | accountAssetTransactions (account_id : String) (asset_id : String)
  | transactions (account_id : String) (tx_hashes : List String)
  | signatories (account_id : String)
  | assetInfo (account_id : String) (asset_id : String)
  | roles (account_id : String)
  | rolePermissions (account_id : String) (role_id : String)
deriving DecidableEq, Repr

/-- Modelled from the spec: the wire Query object (`iroha::protocol::Query`
payload): the request metadata (counter and creation time), the requester
identifier, and exactly one populated payload variant. -/
structure WireQuery where
  counter : Nat
  created_time : Nat
  requester : List Nat
  payload : QueryPayload
deriving DecidableEq, Repr

/-- The builder state of `iroha_lib::Query` as declared in `Query.hpp`:
`counter_`, `created_time_`, the currently selected protobuf query
(`none` before any selection) and the bound keypair. -/
structure Query where
  counter_ : Nat
  created_time_ : Nat
  protobuf_query_ : Option WireQuery
  keypair_ : keypair_t
deriving DecidableEq, Repr

/-- Modelled from the spec: the consumed signing capability
`sign(message_bytes, private_key) -> signature_bytes` (the raw crypto
primitive is an external collaborator), modelled concretely so that
verification succeeds exactly on the signed message. -/
def sign (message privkey : List Nat) : List Nat :=
  message ++ privkey

/-- Modelled from the spec: the verification side of the consumed signing
capability, `verify(message_bytes, signature_bytes, public_identifier)`. -/
def verify (message signature pubkey : List Nat) : Bool :=
  signature = message ++ pubkey

/-- Modelled from the spec: well-formedness of a keypair, pairing the public
identifier with the private signing material of the modelled capability. -/
def keypair_t.wf (kp : keypair_t) : Prop :=
  kp.pubkey = kp.privkey

/-- Modelled from the spec: canonical encoding of a string field of the
external wire schema, as a length-prefixed list of code points. -/
def encString (s : String) : List Nat :=
  s.length :: s.data.map Char.toNat

/-- Modelled from the spec: canonical encoding of a list of string fields of
the external wire schema. -/
def encStringList (l : List String) : List Nat :=
  l.length :: (l.map encString).flatten

/-- Modelled from the spec: canonical encoding of a payload variant: a tag
fixed by the schema followed by the encodings of the variant's fields. -/
def encPayload : QueryPayload → List Nat
  | .accountInfo a => 0 :: encString a
  | .accountAssets a => 1 :: encString a
  | .accountDetail a => 2 :: encString a
  | .accountTransactions a => 3 :: encString a
  | .accountAssetTransactions a s => 4 :: (encString a ++ encString s)
  | .transactions a hs => 5 :: (encString a ++ encStringList hs)
  | .signatories a => 6 :: encString a
  | .assetInfo a s => 7 :: (encString a ++ encString s)
  | .roles a => 8 :: encString a
  | .rolePermissions a r => 9 :: (encString a ++ encString r)

/-- Modelled from the spec: the exact canonical byte sequence mandated by the
external wire schema for a wire query (`SerializeAsString` of the generated
protobuf code, not part of the provided source): metadata, requester, payload,
in schema-fixed order. -/
def serializeQuery (q : WireQuery) : List Nat :=
  q.counter :: q.created_time :: (q.requester.length :: q.requester) ++ encPayload q.payload

/-- The constructor of `iroha_lib::Query` with all arguments supplied.
It is declared `noexcept` in `Query.hpp`, so it cannot signal any failure;
its body is modelled from the spec: the supplied counter and creation time
are stored as given (the counter policy is "not enforced internally beyond
storing the given value") and no query is selected yet. -/
def Query.construct (kp : keypair_t) (counter : Nat) (created_time : Nat) : Query :=
  Query.mk counter created_time none kp

/-- Default-argument semantics of `Query.hpp`: the counter defaults to `1u`. -/
def Query.defaultCounter : Nat := 1

/-- Default-argument semantics of `Query.hpp`: the creation time defaults to
the wall clock at the construction call, in milliseconds since the epoch
(the `system_clock::now()` capture), injected here as the argument `now_ms`
so that the environment-dependent clock is an explicit input. -/
def Query.defaultCreatedTime (now_ms : Nat) : Nat := now_ms

/-- Construction with both default arguments taken, at wall-clock `now_ms`. -/
def Query.constructDefault (kp : keypair_t) (now_ms : Nat) : Query :=
  Query.construct kp Query.defaultCounter (Query.defaultCreatedTime now_ms)

/-- Modelled from the spec: the successful path shared by all ten selection
methods: the builder replaces its current selection with the new payload
variant, stamped with the builder's current counter, creation time and
requester identity (the `QueryGenerator` delegation). -/
def Query.store (b : Query) (p : QueryPayload) : Query :=
  Query.mk b.counter_ b.created_time_
    (some (WireQuery.mk b.counter_ b.created_time_ b.keypair_.pubkey p))
    b.keypair_

/-- Modelled from the spec: `iroha_lib::Query::getAccount` (body not in the
provided source): fails with `InvalidArgument` on an empty `account_id`,
leaving the builder unchanged; otherwise selects the AccountInfo payload.
The returned pair is the post-state of the mutated builder together with the
error signalled, if any. -/
def Query.getAccount (b : Query) (account_id : String) : Query × Option QueryError :=
  if account_id.isEmpty then (b, some QueryError.InvalidArgument)
  else (b.store (QueryPayload.accountInfo account_id), none)

/-- Modelled from the spec: `iroha_lib::Query::getAccountAssets` (body not in
the provided source). -/
def Query.getAccountAssets (b : Query) (account_id : String) : Query × Option QueryError :=
  if account_id.isEmpty then (b, some QueryError.InvalidArgument)
  else (b.store (QueryPayload.accountAssets account_id), none)

/-- Modelled from the spec: `iroha_lib::Query::getAccountDetail` (body not in
the provided source). -/
def Query.getAccountDetail (b : Query) (account_id : String) : Query × Option QueryError :=
  if account_id.isEmpty then (b, some QueryError.InvalidArgument)
  else (b.store (QueryPayload.accountDetail account_id), none)

/-- Modelled from the spec: `iroha_lib::Query::getAccountTransactions` (body
not in the provided source). -/
def Query.getAccountTransactions (b : Query) (account_id : String) : Query × Option QueryError :=
  if account_id.isEmpty then (b, some QueryError.InvalidArgument)
  else (b.store (QueryPayload.accountTransactions account_id), none)

/-- Modelled from the spec: `iroha_lib::Query::getAccountAssetTransactions`
(body not in the provided source): both identifiers are required. -/
def Query.getAccountAssetTransactions (b : Query) (account_id : String) (asset_id : String) :
    Query × Option QueryError :=
  if account_id.isEmpty then (b, some QueryError.InvalidArgument)
  else if asset_id.isEmpty then (b, some QueryError.InvalidArgument)
  else (b.store (QueryPayload.accountAssetTransactions account_id asset_id), none)

/-- Modelled from the spec: `iroha_lib::Query::getTransactions` (body not in
the provided source): the transaction-hash list is required to be non-empty. -/
def Query.getTransactions (b : Query) (account_id : String) (tx_hashes : List String) :
    Query × Option QueryError :=
  if account_id.isEmpty then (b, some QueryError.InvalidArgument)
  else if tx_hashes.isEmpty then (b, some QueryError.InvalidArgument)
  else (b.store (QueryPayload.transactions account_id tx_hashes), none)

/-- Modelled from the spec: `iroha_lib::Query::getSignatories` (body not in
the provided source). -/
def Query.getSignatories (b : Query) (account_id : String) : Query × Option QueryError :=
  if account_id.isEmpty then (b, some QueryError.InvalidArgument)
  else (b.store (QueryPayload.signatories account_id), none)

/-- Modelled from the spec: `iroha_lib::Query::getAssetInfo` (body not in the
provided source): both identifiers are required. -/
def Query.getAssetInfo (b : Query) (account_id : String) (asset_id : String) :
    Query × Option QueryError :=
  if account_id.isEmpty then (b, some QueryError.InvalidArgument)
  else if asset_id.isEmpty then (b, some QueryError.InvalidArgument)
  else (b.store (QueryPayload.assetInfo account_id asset_id), none)

/-- Modelled from the spec: `iroha_lib::Query::getRoles` (body not in the
provided source). -/
def Query.getRoles (b : Query) (account_id : String) : Query × Option QueryError :=
  if account_id.isEmpty then (b, some QueryError.InvalidArgument)
  else (b.store (QueryPayload.roles account_id), none)

/-- Modelled from the spec: `iroha_lib::Query::getRolePermissions` (body not
in the provided source): both identifiers are required. -/
def Query.getRolePermissions (b : Query) (account_id : String) (role_id : String) :
    Query × Option QueryError :=
  if account_id.isEmpty then (b, some QueryError.InvalidArgument)
  else if role_id.isEmpty then (b, some QueryError.InvalidArgument)
  else (b.store (QueryPayload.rolePermissions account_id role_id), none)

/-- Modelled from the spec: the signature block placed in the returned signed
query: the signature bytes and the public identifier of the signer. -/
structure Signature where
  signature : List Nat
  public_key : List Nat
deriving DecidableEq, Repr

/-- Modelled from the spec: the value returned by `signAndAddSignature` (an
`iroha::protocol::Query` with its signature set): the selected wire query
together with its signature block. -/
structure SignedQuery where
  payload : WireQuery
  signature : Signature
deriving DecidableEq, Repr

/-- Modelled from the spec: the SignedQueryEnvelope triple: the serialized
query bytes, the signature bytes, and the public identifier needed by a
verifier. -/
structure SignedQueryEnvelope where
  serialized_query_bytes : List Nat
  signature_bytes : List Nat
  public_identifier : List Nat
deriving DecidableEq, Repr

/-- The envelope view of a signed query: its canonical serialized bytes, its
signature bytes and the signer's public identifier. -/
def SignedQuery.envelope (sq : SignedQuery) : SignedQueryEnvelope :=
  SignedQueryEnvelope.mk (serializeQuery sq.payload) sq.signature.signature
    sq.signature.public_key

/-- Modelled from the spec: `iroha_lib::Query::signAndAddSignature` (body not
in the provided source): fails with `IllegalState` when no query has been
selected; otherwise serializes the selected query canonically, signs those
bytes with the bound private key and returns the signed query carrying the
signature and the public identifier.  The returned pair is the post-state of
the builder together with the result. -/
def Query.signAndAddSignature (b : Query) : Query × Except QueryError SignedQuery :=
  match b.protobuf_query_ with
  | none => (b, Except.error QueryError.IllegalState)
  | some q =>
      (b, Except.ok (SignedQuery.mk q
        (Signature.mk (sign (serializeQuery q) b.keypair_.privkey) b.keypair_.pubkey)))

/-- The ten selection operations of the public interface, with their
parameters, used to quantify over "any get* call". -/
inductive SelectOp where
  | getAccount (account_id : String)
  | getAccountAssets (account_id : String)
  | getAccountDetail (account_id : String)
  | getAccountTransactions (account_id : String)
  | getAccountAssetTransactions (account_id : String) (asset_id : String)
  | getTransactions (account_id : String) (tx_hashes : List String)
  | getSignatories (account_id : String)
  | getAssetInfo (account_id : String) (asset_id : String)
  | getRoles (account_id : String)
  | getRolePermissions (account_id : String) (role_id : String)
deriving DecidableEq, Repr

/-- Dispatch of a selection operation to the corresponding builder method. -/
def select (op : SelectOp) (b : Query) : Query × Option QueryError :=
  match op with
  | .getAccount a => b.getAccount a
  | .getAccountAssets a => b.getAccountAssets a
  | .getAccountDetail a => b.getAccountDetail a
  | .getAccountTransactions a => b.getAccountTransactions a
  | .getAccountAssetTransactions a s => b.getAccountAssetTransactions a s
  | .getTransactions a hs => b.getTransactions a hs
  | .getSignatories a => b.getSignatories a
  | .getAssetInfo a s => b.getAssetInfo a s
  | .getRoles a => b.getRoles a
  | .getRolePermissions a r => b.getRolePermissions a r

/-- The `account_id` parameter, common to every selection operation. -/
def SelectOp.accountId : SelectOp → String
  | .getAccount a => a
  | .getAccountAssets a => a
  | .getAccountDetail a => a
  | .getAccountTransactions a => a
  | .getAccountAssetTransactions a _ => a
  | .getTransactions a _ => a
  | .getSignatories a => a
  | .getAssetInfo a _ => a
  | .getRoles a => a
  | .getRolePermissions a _ => a

/-- The payload variant a selection operation populates on success. -/
def SelectOp.payload : SelectOp → QueryPayload
  | .getAccount a => QueryPayload.accountInfo a
  | .getAccountAssets a => QueryPayload.accountAssets a
  | .getAccountDetail a => QueryPayload.accountDetail a
  | .getAccountTransactions a => QueryPayload.accountTransactions a
  | .getAccountAssetTransactions a s => QueryPayload.accountAssetTransactions a s
  | .getTransactions a hs => QueryPayload.transactions a hs
  | .getSignatories a => QueryPayload.signatories a
  | .getAssetInfo a s => QueryPayload.assetInfo a s
  | .getRoles a => QueryPayload.roles a
  | .getRolePermissions a r => QueryPayload.rolePermissions a r

/-- The precondition each selection operation checks: every required
identifier non-empty, and a non-empty hash list for `getTransactions`. -/
def SelectOp.valid : SelectOp → Bool
  | .getAccount a => !a.isEmpty
  | .getAccountAssets a => !a.isEmpty
  | .getAccountDetail a => !a.isEmpty
  | .getAccountTransactions a => !a.isEmpty
  | .getAccountAssetTransactions a s => !a.isEmpty && !s.isEmpty
  | .getTransactions a hs => !a.isEmpty && !hs.isEmpty
  | .getSignatories a => !a.isEmpty
  | .getAssetInfo a s => !a.isEmpty && !s.isEmpty
  | .getRoles a => !a.isEmpty
  | .getRolePermissions a r => !a.isEmpty && !r.isEmpty

/-- The public mutating interface of the builder: the ten selection calls and
finalize. -/
inductive BuilderOp where
  | sel (op : SelectOp)
  | finalize
deriving DecidableEq, Repr

/-- Post-state of the builder after one public call. -/
def applyOp (op : BuilderOp) (b : Query) : Query :=
  match op with
  | .sel s => (select s b).1
  | .finalize => (Query.signAndAddSignature b).1

/-- Post-state of the builder after a sequence of public calls. -/
def applyOps (ops : List BuilderOp) (b : Query) : Query :=
  ops.foldl (fun s op => applyOp op s) b

/-! ### Shared lemmas about the builder methods -/

/-- Every selection call either leaves the builder exactly unchanged (the
failure path) or stores the operation's payload variant (the success path). -/
theorem select_fst_cases (op : SelectOp) (b : Query) :
    (select op b).1 = b ∨ (select op b).1 = b.store op.payload := by
  cases op <;>
    simp only [select, Query.getAccount, Query.getAccountAssets, Query.getAccountDetail,
      Query.getAccountTransactions, Query.getAccountAssetTransactions, Query.getTransactions,
      Query.getSignatories, Query.getAssetInfo, Query.getRoles, Query.getRolePermissions,
      SelectOp.payload] <;>
    (repeat' split) <;> simp

/-- A selection call never changes the builder's counter. -/
theorem select_counter (op : SelectOp) (b : Query) :
    (select op b).1.counter_ = b.counter_ := by
  rcases select_fst_cases op b with h | h <;> simp [h, Query.store]

/-- A selection call never changes the builder's creation time. -/
theorem select_created_time (op : SelectOp) (b : Query) :
    (select op b).1.created_time_ = b.created_time_ := by
  rcases select_fst_cases op b with h | h <;> simp [h, Query.store]

/-- A selection call never changes the bound keypair. -/
theorem select_keypair (op : SelectOp) (b : Query) :
    (select op b).1.keypair_ = b.keypair_ := by
  rcases select_fst_cases op b with h | h <;> simp [h, Query.store]

/-- A selection call with valid arguments stores exactly the operation's
payload, stamped with the builder's counter, creation time and requester. -/
theorem select_valid_result (op : SelectOp) (b : Query) (h : op.valid = true) :
    select op b =
      (Query.mk b.counter_ b.created_time_
        (some (WireQuery.mk b.counter_ b.created_time_ b.keypair_.pubkey op.payload))
        b.keypair_, none) := by
  cases op <;>
    simp_all only [SelectOp.valid, Bool.and_eq_true, Bool.not_eq_true'] <;>
    [skip; skip; skip; skip; obtain ⟨h1, h2⟩ := h; obtain ⟨h1, h2⟩ := h;
     skip; obtain ⟨h1, h2⟩ := h; skip; obtain ⟨h1, h2⟩ := h] <;>
    simp_all [select, Query.getAccount, Query.getAccountAssets, Query.getAccountDetail,
      Query.getAccountTransactions, Query.getAccountAssetTransactions, Query.getTransactions,
      Query.getSignatories, Query.getAssetInfo, Query.getRoles, Query.getRolePermissions,
      SelectOp.payload, Query.store]

/-- A selection call with invalid arguments fails with `InvalidArgument` and
leaves the builder exactly unchanged. -/
theorem select_invalid_result (op : SelectOp) (b : Query) (h : op.valid = false) :
    select op b = (b, some QueryError.InvalidArgument) := by
  cases op <;>
    simp_all only [SelectOp.valid, Bool.and_eq_false_iff, Bool.not_eq_false'] <;>
    simp_all [select, Query.getAccount, Query.getAccountAssets, Query.getAccountDetail,
      Query.getAccountTransactions, Query.getAccountAssetTransactions, Query.getTransactions,
      Query.getSignatories, Query.getAssetInfo, Query.getRoles, Query.getRolePermissions] <;>
    rcases h with h | h <;> simp_all

/-- Finalize never changes the builder state at all. -/
theorem signAndAddSignature_fst (b : Query) :
    (Query.signAndAddSignature b).1 = b := by
  cases h : b.protobuf_query_ <;> simp [Query.signAndAddSignature, h]

/-- Any public call preserves the counter and the creation time. -/
theorem applyOp_metadata (op : BuilderOp) (b : Query) :
    (applyOp op b).counter_ = b.counter_ ∧ (applyOp op b).created_time_ = b.created_time_ := by
  cases op with
  | sel s => exact ⟨select_counter s b, select_created_time s b⟩
  | finalize => rw [applyOp, signAndAddSignature_fst]; exact ⟨rfl, rfl⟩

/-- The metadata invariant along any run: counter and creation time are the
construction values, and any selected query is stamped with them. -/
theorem applyOp_invariant (c t : Nat) (op : BuilderOp) (b : Query)
    (hc : b.counter_ = c) (ht : b.created_time_ = t)
    (hq : ∀ q : WireQuery, b.protobuf_query_ = some q → q.counter = c ∧ q.created_time = t) :
    (applyOp op b).counter_ = c ∧ (applyOp op b).created_time_ = t ∧
      ∀ q : WireQuery, (applyOp op b).protobuf_query_ = some q →
        q.counter = c ∧ q.created_time = t := by
  cases op with
  | sel s =>
      rcases select_fst_cases s b with h | h <;> rw [applyOp, h]
      · exact ⟨hc, ht, hq⟩
      · refine ⟨hc, ht, fun q hmem => ?_⟩
        simp only [Query.store] at hmem
        obtain rfl : WireQuery.mk b.counter_ b.created_time_ b.keypair_.pubkey s.payload = q :=
          Option.some.inj hmem
        exact ⟨hc, ht⟩
  | finalize => rw [applyOp, signAndAddSignature_fst]; exact ⟨hc, ht, hq⟩

/-! ### The claims -/

/-- C4: finalize (`signAndAddSignature`) on a freshly constructed builder on
which no selection method has ever been called fails with `IllegalState` and
produces no signed envelope. -/
theorem finalize_unselected_illegal_state (kp : keypair_t) (counter created_time : Nat) :
    (Query.signAndAddSignature (Query.construct kp counter created_time)).2 =
      Except.error QueryError.IllegalState := rfl

/-- C6: `getTransactions` with an empty transaction-hash list fails with
`InvalidArgument` for every account identifier and every builder state,
leaving the builder unchanged: the hash list of a Transactions query is
required to be non-empty. -/
theorem getTransactions_empty_hashes_invalid (b : Query) (account_id : String) :
    Query.getTransactions b account_id [] = (b, some QueryError.InvalidArgument) := by
  cases h : account_id.isEmpty <;> simp [Query.getTransactions, h]

/-- C7: a builder constructed with both default arguments has counter 1, and
its creation time is the wall-clock time in milliseconds since the epoch at
the moment of construction (the injected `now_ms`). -/
theorem construct_default_metadata (kp : keypair_t) (now_ms : Nat) :
    (Query.constructDefault kp now_ms).counter_ = 1 ∧
      (Query.constructDefault kp now_ms).created_time_ = now_ms :=
  ⟨rfl, rfl⟩

/-- C8 counterexample: constructing a builder with counter 0 — the canonical
violation of the counters-start-at-1 policy — does not fail: the `noexcept`
constructor completes and returns a builder that stores counter 0 with no
query selected, so construction does not fail with `InvalidArgument`. -/
theorem construct_zero_counter_succeeds :
    (Query.construct (keypair_t.mk [1, 2] [1, 2]) 0 1000).counter_ = 0 ∧
      (Query.construct (keypair_t.mk [1, 2] [1, 2]) 0 1000).created_time_ = 1000 ∧
      (Query.construct (keypair_t.mk [1, 2] [1, 2]) 0 1000).protobuf_query_ = none :=
  ⟨rfl, rfl, rfl⟩

/-- C8 amended: construction never fails: for every keypair, every counter
(including the policy-violating 0) and every creation time, the `noexcept`
constructor stores the supplied counter and creation time exactly as given,
with no query selected; the counters-start-at-1 policy is an external-schema
constraint not enforced by the builder. -/
theorem construct_stores_given_values (kp : keypair_t) (counter created_time : Nat) :
    (Query.construct kp counter created_time).counter_ = counter ∧
      (Query.construct kp counter created_time).created_time_ = created_time ∧
      (Query.construct kp counter created_time).protobuf_query_ = none :=
  ⟨rfl, rfl, rfl⟩

/-- C9: finalize (`signAndAddSignature`) neither advances nor resets the
builder's counter: after any number of repeated finalize calls the builder's
counter equals the counter before. -/
theorem finalize_preserves_counter (b : Query) (n : Nat) :
    ((fun x : Query => (Query.signAndAddSignature x).1)^[n] b).counter_ = b.counter_ := by
  induction n with
  | zero => rfl
  | succ k ih =>
      rw [Function.iterate_succ_apply', signAndAddSignature_fst]
      exact ih

/-- C10: the public interface offers no operation that modifies the counter
or the creation time after construction: every selection call and every
finalize leaves them unchanged, and after any sequence of public calls on a
constructed builder the counter and creation time still equal the
construction values, with every stamped query carrying exactly those
values. -/
theorem interface_never_changes_metadata (kp : keypair_t) (c t : Nat) (ops : List BuilderOp) :
    (∀ op b, (applyOp op b).counter_ = b.counter_ ∧
        (applyOp op b).created_time_ = b.created_time_) ∧
      (applyOps ops (Query.construct kp c t)).counter_ = c ∧
      (applyOps ops (Query.construct kp c t)).created_time_ = t ∧
      ∀ q : WireQuery, (applyOps ops (Query.construct kp c t)).protobuf_query_ = some q →
        q.counter = c ∧ q.created_time = t := by
  refine ⟨applyOp_metadata, ?_⟩
  suffices h : ∀ (l : List BuilderOp) (b : Query), b.counter_ = c → b.created_time_ = t →
      (∀ q : WireQuery, b.protobuf_query_ = some q → q.counter = c ∧ q.created_time = t) →
      (applyOps l b).counter_ = c ∧ (applyOps l b).created_time_ = t ∧
        ∀ q : WireQuery, (applyOps l b).protobuf_query_ = some q →
          q.counter = c ∧ q.created_time = t by
    exact h ops (Query.construct kp c t) rfl rfl (by intro q hq; cases hq)
  intro l
  induction l with
  | nil => intro b hc ht hq; exact ⟨hc, ht, hq⟩
  | cons op rest ih =>
      intro b hc ht hq
      obtain ⟨hc1, ht1, hq1⟩ := applyOp_invariant c t op b hc ht hq
      exact ih (applyOp op b) hc1 ht1 hq1

/-- C1: for every builder with a selected query, finalize
(`signAndAddSignature`) serializes the currently selected query into the
canonical byte sequence of the wire schema; the signature in the returned
envelope equals `sign(serialized_query_bytes, private_key)` for the keypair
bound at construction, so verification of the envelope against the public
identifier succeeds, and fails after replacing any single byte of the
serialized query by a different value. -/
theorem finalize_signs_selected_query (b : Query) (q : WireQuery)
    (hsel : b.protobuf_query_ = some q) (hkp : b.keypair_.wf) :
    ∃ sq : SignedQuery,
      (Query.signAndAddSignature b).2 = Except.ok sq ∧
      sq.envelope.serialized_query_bytes = serializeQuery q ∧
      sq.envelope.signature_bytes = sign (serializeQuery q) b.keypair_.privkey ∧
      verify sq.envelope.serialized_query_bytes sq.envelope.signature_bytes
        sq.envelope.public_identifier = true ∧
      ∀ i c : Nat, i < sq.envelope.serialized_query_bytes.length →
        sq.envelope.serialized_query_bytes[i]? ≠ some c →
        verify (sq.envelope.serialized_query_bytes.set i c)
          sq.envelope.signature_bytes sq.envelope.public_identifier = false := by
  have hpk : b.keypair_.pubkey = b.keypair_.privkey := hkp
  refine ⟨SignedQuery.mk q
      (Signature.mk (sign (serializeQuery q) b.keypair_.privkey) b.keypair_.pubkey),
    by simp [Query.signAndAddSignature, hsel], rfl, rfl, ?_, ?_⟩
  · simp [verify, sign, SignedQuery.envelope, hpk]
  · intro i c hi hne
    simp only [SignedQuery.envelope] at hi hne ⊢
    simp only [verify, sign, hpk, decide_eq_false_iff_not]
    intro heq
    apply hne
    rw [List.append_cancel_right heq]
    exact List.getElem?_set_eq_of_lt c hi

/-- C2: for every builder and every one of the ten selection operations with
valid arguments (non-empty `account_id` and required extras), selecting and
then finalizing yields a signed query whose embedded counter and creation
time equal exactly the counter and creation time held by the builder at the
moment of selection. -/
theorem select_finalize_stamps_metadata (b : Query) (op : SelectOp)
    (h : op.valid = true) :
    ∃ sq : SignedQuery,
      (Query.signAndAddSignature (select op b).1).2 = Except.ok sq ∧
      sq.payload.counter = b.counter_ ∧
      sq.payload.created_time = b.created_time_ := by
  rw [select_valid_result op b h]
  exact ⟨_, rfl, rfl, rfl⟩

/-- C3: each successful selection replaces the previous one: selecting kind A
(populating A's variant) and then kind B before finalizing leaves exactly B's
variant selected, stamped with the builder's metadata, and the finalized
envelope describes only B, with no residue of A. -/
theorem select_overwrites_previous (b : Query) (opA opB : SelectOp)
    (hA : opA.valid = true) (hB : opB.valid = true) :
    (select opA b).1.protobuf_query_ =
        some (WireQuery.mk b.counter_ b.created_time_ b.keypair_.pubkey opA.payload) ∧
    (select opB (select opA b).1).1.protobuf_query_ =
        some (WireQuery.mk b.counter_ b.created_time_ b.keypair_.pubkey opB.payload) ∧
    ∃ sq : SignedQuery,
      (Query.signAndAddSignature (select opB (select opA b).1).1).2 = Except.ok sq ∧
      sq.payload = WireQuery.mk b.counter_ b.created_time_ b.keypair_.pubkey opB.payload := by
  have h1 := select_valid_result opB (select opA b).1 hB
  rw [select_counter, select_created_time, select_keypair] at h1
  rw [h1, select_valid_result opA b hA]
  exact ⟨rfl, rfl, _, rfl, rfl⟩

/-- C5: any selection call with an empty `account_id` fails with
`InvalidArgument` and leaves the builder's state exactly unchanged: the
previously selected payload (if any), the counter and the creation time are
exactly as before the failed call. -/
theorem select_empty_account_invalid (b : Query) (op : SelectOp)
    (h : op.accountId.isEmpty = true) :
    select op b = (b, some QueryError.InvalidArgument) := by
  cases op <;> simp_all [select, SelectOp.accountId, Query.getAccount, Query.getAccountAssets,
    Query.getAccountDetail, Query.getAccountTransactions, Query.getAccountAssetTransactions,
    Query.getTransactions, Query.getSignatories, Query.getAssetInfo, Query.getRoles,
    Query.getRolePermissions]

/-! ### Concrete data for the witnesses -/

/-- A concrete well-formed keypair for the witnesses. -/
def kp0 : keypair_t := keypair_t.mk [1, 2] [1, 2]

/-- A concrete domain-qualified account identifier. -/
def aliceId : String := "alice@domain"

/-- The empty identifier. -/
def emptyId : String := ""

/-- A concrete builder: constructed with counter 5 and creation time 1000. -/
def builder0 : Query := Query.construct kp0 5 1000

/-- `builder0` after selecting the AccountInfo query for `aliceId`. -/
def builder1 : Query := (Query.getAccount builder0 aliceId).1

/-- The wire query selected inside `builder1`. -/
def wire1 : WireQuery :=
  WireQuery.mk 5 1000 [1, 2] (QueryPayload.accountInfo aliceId)

/-- C1 witness: the hypotheses of `finalize_signs_selected_query` hold for
the concrete builder `builder1` with selection `wire1`, and the conclusion
follows at that input. -/
theorem finalize_signs_selected_query_witness :
    builder1.protobuf_query_ = some wire1 ∧ builder1.keypair_.wf ∧
    ∃ sq : SignedQuery,
      (Query.signAndAddSignature builder1).2 = Except.ok sq ∧
      sq.envelope.serialized_query_bytes = serializeQuery wire1 ∧
      sq.envelope.signature_bytes = sign (serializeQuery wire1) builder1.keypair_.privkey ∧
      verify sq.envelope.serialized_query_bytes sq.envelope.signature_bytes
        sq.envelope.public_identifier = true ∧
      ∀ i c : Nat, i < sq.envelope.serialized_query_bytes.length →
        sq.envelope.serialized_query_bytes[i]? ≠ some c →
        verify (sq.envelope.serialized_query_bytes.set i c)
          sq.envelope.signature_bytes sq.envelope.public_identifier = false :=
  ⟨by decide,
    by show builder1.keypair_.pubkey = builder1.keypair_.privkey; decide,
    finalize_signs_selected_query builder1 wire1 (by decide)
      (by show builder1.keypair_.pubkey = builder1.keypair_.privkey; decide)⟩

/-- C2 witness: the selection `getAccount aliceId` is valid, and finalizing
after it on `builder0` embeds counter 5 and creation time 1000. -/
theorem select_finalize_stamps_metadata_witness :
    (SelectOp.getAccount aliceId).valid = true ∧
    ∃ sq : SignedQuery,
      (Query.signAndAddSignature (select (SelectOp.getAccount aliceId) builder0).1).2 =
        Except.ok sq ∧
      sq.payload.counter = builder0.counter_ ∧
      sq.payload.created_time = builder0.created_time_ :=
  ⟨by decide,
    select_finalize_stamps_metadata builder0 (SelectOp.getAccount aliceId) (by decide)⟩

/-- C3 witness: selecting AccountInfo then Roles on `builder0` leaves only
the Roles variant selected and the finalized envelope describes only it. -/
theorem select_overwrites_previous_witness :
    (SelectOp.getAccount aliceId).valid = true ∧
    (SelectOp.getRoles aliceId).valid = true ∧
    ((select (SelectOp.getAccount aliceId) builder0).1.protobuf_query_ =
        some (WireQuery.mk builder0.counter_ builder0.created_time_ builder0.keypair_.pubkey
          (SelectOp.getAccount aliceId).payload) ∧
      (select (SelectOp.getRoles aliceId)
            (select (SelectOp.getAccount aliceId) builder0).1).1.protobuf_query_ =
        some (WireQuery.mk builder0.counter_ builder0.created_time_ builder0.keypair_.pubkey
          (SelectOp.getRoles aliceId).payload) ∧
      ∃ sq : SignedQuery,
        (Query.signAndAddSignature (select (SelectOp.getRoles aliceId)
            (select (SelectOp.getAccount aliceId) builder0).1).1).2 = Except.ok sq ∧
        sq.payload = WireQuery.mk builder0.counter_ builder0.created_time_
          builder0.keypair_.pubkey (SelectOp.getRoles aliceId).payload) :=
  ⟨by decide, by decide,
    select_overwrites_previous builder0 (SelectOp.getAccount aliceId)
      (SelectOp.getRoles aliceId) (by decide) (by decide)⟩

/-- C5 witness: on the already-selected `builder1`, a `getRoles` call with an
empty account identifier fails with `InvalidArgument` and returns `builder1`
itself, its prior AccountInfo selection intact. -/
theorem select_empty_account_invalid_witness :
    (SelectOp.getRoles emptyId).accountId.isEmpty = true ∧
    select (SelectOp.getRoles emptyId) builder1 =
      (builder1, some QueryError.InvalidArgument) :=
  ⟨by decide, select_empty_account_invalid builder1 (SelectOp.getRoles emptyId) (by decide)⟩

end IrohaLib
